import Mathlib

/-!
Shallow embedding of the TaleKeeper story-publishing server
(route layer in `src/unnamed/part_008`, shared schema in `src/unnamed/part_009`).

The route layer exists in two versions inside `part_008`: one over the
in-memory storage abstraction (`storage`, lines 1-664) and one over the
Supabase-backed storage (`supabaseStorage`, lines 665 onward).  The storage
implementations themselves (`storage.ts`, `supabase-storage.ts`) are not part
of the provided sources, so the storage operations below are modelled from the
spec's description ("a storage abstraction (in-memory map in one version, a
managed backend-as-a-service in another)"); the route handlers are translated
directly from `part_008`.

JSON responses are modelled as an explicit value type so that claims about the
presence or absence of fields (`password`, `content`, `averageRating` vs
`avgRating`) are genuine properties of the embedding.
-/

/-- JSON values, as produced by `res.json(...)` in the route handlers.
Numbers are modelled as rationals (JS numbers; the only non-integer values
produced by these routes are average ratings). An object is a list of
key/value pairs in insertion order, matching JS object-spread semantics. -/
inductive Val where
  | str : String → Val
  | num : Rat → Val
  | bool : Bool → Val
  | null : Val
  | obj : List (String × Val) → Val
  | arr : List Val → Val

/-- An HTTP response: status code plus JSON body. -/
structure Resp where
  status : Nat
  body : Val

/-- `res.json({ message: m })`, the shape of every error response. -/
def msgObj (m : String) : Val := .obj [("message", .str m)]

/-- The `users` table row (`src/unnamed/part_009` lines 5-15). -/
structure User where
  id : Nat
  username : String
  password : String
  email : String
  fullName : String
  bio : String
  avatarUrl : String
  isPremium : Bool
  isAuthor : Bool
deriving Repr, DecidableEq

/-- The `stories` table row (`src/unnamed/part_009` lines 17-29).
Timestamps are modelled as naturals. -/
structure Story where
  id : Nat
  title : String
  description : String
  content : String
  coverImage : String
  authorId : Nat
  isPremium : Bool
  isPublished : Bool
  isShortStory : Bool
  createdAt : Nat
  updatedAt : Nat
deriving Repr, DecidableEq

/-- The `genres` table row (`src/unnamed/part_009` lines 31-36). -/
structure Genre where
  id : Nat
  name : String
  description : String
  icon : String
deriving Repr, DecidableEq

/-- The `storyGenres` join-table row (`src/unnamed/part_009` lines 38-41). -/
structure StoryGenre where
  storyId : Nat
  genreId : Nat
deriving Repr, DecidableEq

/-- The `ratings` table row (`src/unnamed/part_009` lines 43-50). -/
structure Rating where
  id : Nat
  userId : Nat
  storyId : Nat
  rating : Nat
  review : String
  createdAt : Nat
deriving Repr, DecidableEq

/-- The `bookmarks` table row (`src/unnamed/part_009` lines 52-57). -/
structure Bookmark where
  id : Nat
  userId : Nat
  storyId : Nat
  createdAt : Nat
deriving Repr, DecidableEq

/-- Modelled from the spec: the state of the in-memory storage abstraction
(`storage.ts`, not among the provided sources; the spec describes it as an
"in-memory map").  Rows are kept in insertion order, as a JS `Map` iterates
its entries; the `next*` counters model the auto-increment ids and `now`
models the clock used for `createdAt` timestamps. -/
structure Storage where
  users : List User
  stories : List Story
  genres : List Genre
  storyGenres : List StoryGenre
  ratings : List Rating
  bookmarks : List Bookmark
  nextUserId : Nat
  nextStoryId : Nat
  nextRatingId : Nat
  nextBookmarkId : Nat
  now : Nat
deriving Repr, DecidableEq

/-- Modelled from the spec: `storage.getUser(id)` (storage.ts missing). -/
def getUser (st : Storage) (id : Nat) : Option User :=
  st.users.find? (fun u => u.id == id)

/-- Modelled from the spec: `storage.getUserByUsername` (storage.ts missing). -/
def getUserByUsername (st : Storage) (username : String) : Option User :=
  st.users.find? (fun u => u.username == username)

/-- Modelled from the spec: `storage.getUserByEmail` (storage.ts missing). -/
def getUserByEmail (st : Storage) (email : String) : Option User :=
  st.users.find? (fun u => u.email == email)

/-- A user update object: the subset of user fields the routes pass to
`storage.updateUser` (`fullName`/`bio`/`avatarUrl` from the profile route,
`isPremium` from the premium route, `isAuthor` from story publishing). -/
structure UserUpdate where
  fullName : Option String := none
  bio : Option String := none
  avatarUrl : Option String := none
  isPremium : Option Bool := none
  isAuthor : Option Bool := none
deriving Repr, DecidableEq

/-- Apply a `UserUpdate` to a user record (object-spread merge semantics). -/
def applyUserUpdate (u : User) (d : UserUpdate) : User :=
  { u with
    fullName := d.fullName.getD u.fullName
    bio := d.bio.getD u.bio
    avatarUrl := d.avatarUrl.getD u.avatarUrl
    isPremium := d.isPremium.getD u.isPremium
    isAuthor := d.isAuthor.getD u.isAuthor }

/-- Modelled from the spec: `storage.updateUser(id, data)` (storage.ts
missing): merge `data` into the stored user with that id, returning the
updated user, or `none` when no such user exists. -/
def updateUser (st : Storage) (id : Nat) (d : UserUpdate) :
    Storage × Option User :=
  match st.users.find? (fun u => u.id == id) with
  | none => (st, none)
  | some u =>
    let u' := applyUserUpdate u d
    ({ st with users := st.users.map (fun v => if v.id == id then applyUserUpdate v d else v) },
     some u')

/-- Modelled from the spec: `storage.createUser` (storage.ts missing):
assign the next id and store the new row. -/
def createUser (st : Storage) (u : User) : Storage × User :=
  let u' := { u with id := st.nextUserId }
  ({ st with users := st.users ++ [u'], nextUserId := st.nextUserId + 1 }, u')

/-- Modelled from the spec: `storage.getStory(id)` (storage.ts missing). -/
def getStory (st : Storage) (id : Nat) : Option Story :=
  st.stories.find? (fun s => s.id == id)

/-- Modelled from the spec: `storage.getRating(userId, storyId)`
(storage.ts missing): the user's rating of that story, if any. -/
def getRating (st : Storage) (userId storyId : Nat) : Option Rating :=
  st.ratings.find? (fun r => r.userId == userId && r.storyId == storyId)

/-- Modelled from the spec: `storage.getRatings(storyId)` (storage.ts
missing): all ratings of the story. -/
def getRatings (st : Storage) (storyId : Nat) : List Rating :=
  st.ratings.filter (fun r => r.storyId == storyId)

/-- Modelled from the spec: `storage.getAverageRating(storyId)` (storage.ts
missing): mean of all ratings for the story, `0` when there are none. -/
def getAverageRating (st : Storage) (storyId : Nat) : Rat :=
  let rs := getRatings st storyId
  if rs.isEmpty then 0
  else ((rs.map (fun r => (r.rating : Rat))).sum) / (rs.length : Rat)

/-- Modelled from the spec: `storage.createRating` (storage.ts missing):
assign the next id and timestamp and store the new row. -/
def createRating (st : Storage) (userId storyId rating : Nat)
    (review : Option String) : Storage × Rating :=
  let r : Rating :=
    { id := st.nextRatingId, userId := userId, storyId := storyId,
      rating := rating, review := review.getD "", createdAt := st.now }
  ({ st with ratings := st.ratings ++ [r], nextRatingId := st.nextRatingId + 1 }, r)

/-- Modelled from the spec: `storage.updateRating(id, data)` (storage.ts
missing): merge the new rating value and review into the stored rating with
that id, returning the updated row, or `none` when no such rating exists. -/
def updateRating (st : Storage) (id rating : Nat) (review : Option String) :
    Storage × Option Rating :=
  match st.ratings.find? (fun r => r.id == id) with
  | none => (st, none)
  | some r =>
    let upd := fun (q : Rating) => { q with rating := rating, review := review.getD q.review }
    ({ st with ratings := st.ratings.map (fun q => if q.id == id then upd q else q) },
     some (upd r))

/-- Modelled from the spec: `storage.getBookmark(userId, storyId)`
(storage.ts missing). -/
def getBookmark (st : Storage) (userId storyId : Nat) : Option Bookmark :=
  st.bookmarks.find? (fun b => b.userId == userId && b.storyId == storyId)

/-- Modelled from the spec: `storage.createBookmark` (storage.ts missing). -/
def createBookmark (st : Storage) (userId storyId : Nat) : Storage × Bookmark :=
  let b : Bookmark :=
    { id := st.nextBookmarkId, userId := userId, storyId := storyId, createdAt := st.now }
  ({ st with bookmarks := st.bookmarks ++ [b], nextBookmarkId := st.nextBookmarkId + 1 }, b)

/-- Modelled from the spec: `storage.deleteBookmark(userId, storyId)`
(storage.ts missing): remove the user's bookmark of the story, reporting
whether one existed. -/
def deleteBookmark (st : Storage) (userId storyId : Nat) : Storage × Bool :=
  match getBookmark st userId storyId with
  | none => (st, false)
  | some _ =>
    ({ st with bookmarks :=
        st.bookmarks.filter (fun b => !(b.userId == userId && b.storyId == storyId)) },
     true)

/-- Modelled from the spec: `storage.getBookmarks(userId)` (storage.ts
missing): the stories the user has bookmarked. -/
def getBookmarks (st : Storage) (userId : Nat) : List Story :=
  (st.bookmarks.filter (fun b => b.userId == userId)).filterMap
    (fun b => getStory st b.storyId)

/-- Modelled from the spec: `storage.countAuthorStories(authorId,
isShortStory)` (storage.ts missing): how many stories of that kind the
author has. -/
def countAuthorStories (st : Storage) (authorId : Nat) (isShortStory : Bool) : Nat :=
  (st.stories.filter (fun s => s.authorId == authorId && s.isShortStory == isShortStory)).length

/-- Modelled from the spec: `storage.getStoryGenres(storyId)` (storage.ts
missing): the genres attached to the story through the join table. -/
def getStoryGenres (st : Storage) (storyId : Nat) : List Genre :=
  (st.storyGenres.filter (fun sg => sg.storyId == storyId)).filterMap
    (fun sg => st.genres.find? (fun g => g.id == sg.genreId))

/-- Modelled from the spec: `storage.createStory` (storage.ts missing):
assign the next id and timestamps and store the new row, applying the
schema's column defaults for absent optional fields. -/
def createStory (st : Storage) (title description content : String)
    (coverImage : Option String) (authorId : Nat)
    (isPremium isPublished isShortStory : Option Bool) : Storage × Story :=
  let s : Story :=
    { id := st.nextStoryId, title := title, description := description,
      content := content, coverImage := coverImage.getD "", authorId := authorId,
      isPremium := isPremium.getD false, isPublished := isPublished.getD false,
      isShortStory := isShortStory.getD false, createdAt := st.now, updatedAt := st.now }
  ({ st with stories := st.stories ++ [s], nextStoryId := st.nextStoryId + 1 }, s)

/-- The loop of `storage.addStoryGenre` calls made after story creation
(`part_008` lines 406-411). -/
def addStoryGenres (st : Storage) (storyId : Nat) (genreIds : List Nat) : Storage :=
  { st with storyGenres :=
      st.storyGenres ++ genreIds.map (fun g => { storyId := storyId, genreId := g }) }

/-- The query options of `storage.getStories` (`part_008` lines 205-219). -/
structure StoryQuery where
  authorId : Option Nat := none
  genreId : Option Nat := none
  isPremium : Option Bool := none
  isShortStory : Option Bool := none
  limit : Option Nat := none
  offset : Option Nat := none

/-- Modelled from the spec: `storage.getStories(options)` (storage.ts
missing): filter the stories by the given options, then apply offset and
limit. -/
def getStories (st : Storage) (q : StoryQuery) : List Story :=
  let l := st.stories.filter (fun s =>
    (match q.authorId with | some a => s.authorId == a | none => true) &&
    (match q.genreId with
     | some g => st.storyGenres.any (fun sg => sg.storyId == s.id && sg.genreId == g)
     | none => true) &&
    (match q.isPremium with | some p => s.isPremium == p | none => true) &&
    (match q.isShortStory with | some sh => s.isShortStory == sh | none => true))
  (l.drop (q.offset.getD 0)).take (q.limit.getD l.length)

/-- Modelled from the spec: `storage.getFeaturedStories(limit)` (storage.ts
missing): a selection of published stories. -/
def getFeaturedStories (st : Storage) (limit : Nat) : List Story :=
  (st.stories.filter (fun s => s.isPublished)).take limit

/-- Insert a story into a list sorted by descending average rating. -/
def insertByRating (st : Storage) (s : Story) : List Story → List Story
  | [] => [s]
  | t :: ts =>
    if getAverageRating st t.id ≤ getAverageRating st s.id then s :: t :: ts
    else t :: insertByRating st s ts

/-- Sort stories by descending average rating (insertion sort). -/
def sortByRating (st : Storage) : List Story → List Story
  | [] => []
  | s :: ss => insertByRating st s (sortByRating st ss)

/-- Modelled from the spec: `storage.getTopRatedStories(limit)` (storage.ts
missing): published stories ordered by descending average rating. -/
def getTopRatedStories (st : Storage) (limit : Nat) : List Story :=
  (sortByRating st (st.stories.filter (fun s => s.isPublished))).take limit

/-- All columns of a user row as a JSON object, in schema order. -/
def userFields (u : User) : List (String × Val) :=
  [("id", .num u.id), ("username", .str u.username), ("password", .str u.password),
   ("email", .str u.email), ("fullName", .str u.fullName), ("bio", .str u.bio),
   ("avatarUrl", .str u.avatarUrl), ("isPremium", .bool u.isPremium),
   ("isAuthor", .bool u.isAuthor)]

/-- Object-rest destructuring: drop the property named `k`. -/
def omitKey (k : String) (o : List (String × Val)) : List (String × Val) :=
  o.filter (fun p => p.1 != k)

/-- `const { password, ...userWithoutPassword } = user` — the user object as
returned by every user-returning route. -/
def userObjNoPw (u : User) : List (String × Val) := omitKey "password" (userFields u)

/-- All columns of a story row as a JSON object (memory version, camelCase
columns as in `src/unnamed/part_009`). -/
def storyFields (s : Story) : List (String × Val) :=
  [("id", .num s.id), ("title", .str s.title), ("description", .str s.description),
   ("content", .str s.content), ("coverImage", .str s.coverImage),
   ("authorId", .num s.authorId), ("isPremium", .bool s.isPremium),
   ("isPublished", .bool s.isPublished), ("isShortStory", .bool s.isShortStory),
   ("createdAt", .num s.createdAt), ("updatedAt", .num s.updatedAt)]

/-- All columns of a story row as a JSON object (Supabase version: the rows
use snake_case column names, cf. `story.is_published`, `story.author_id` in
the Supabase handlers). -/
def storyFieldsSB (s : Story) : List (String × Val) :=
  [("id", .num s.id), ("title", .str s.title), ("description", .str s.description),
   ("content", .str s.content), ("cover_image", .str s.coverImage),
   ("author_id", .num s.authorId), ("is_premium", .bool s.isPremium),
   ("is_published", .bool s.isPublished), ("is_short_story", .bool s.isShortStory),
   ("created_at", .num s.createdAt), ("updated_at", .num s.updatedAt)]

/-- A rating row as a JSON object (memory version). -/
def ratingFields (r : Rating) : List (String × Val) :=
  [("id", .num r.id), ("userId", .num r.userId), ("storyId", .num r.storyId),
   ("rating", .num r.rating), ("review", .str r.review), ("createdAt", .num r.createdAt)]

/-- A rating row as a JSON object (Supabase version, snake_case columns). -/
def ratingFieldsSB (r : Rating) : List (String × Val) :=
  [("id", .num r.id), ("user_id", .num r.userId), ("story_id", .num r.storyId),
   ("rating", .num r.rating), ("review", .str r.review), ("created_at", .num r.createdAt)]

/-- A bookmark row as a JSON object (memory version). -/
def bookmarkFields (b : Bookmark) : List (String × Val) :=
  [("id", .num b.id), ("userId", .num b.userId), ("storyId", .num b.storyId),
   ("createdAt", .num b.createdAt)]

/-- A genre row as a JSON object. -/
def genreFields (g : Genre) : List (String × Val) :=
  [("id", .num g.id), ("name", .str g.name), ("description", .str g.description),
   ("icon", .str g.icon)]

/-- The `genres` array attached to story responses. -/
def genresVal (st : Storage) (storyId : Nat) : Val :=
  .arr ((getStoryGenres st storyId).map (fun g => .obj (genreFields g)))

/-- The author object of the story detail response (`part_008` lines 349-355):
id, username, fullName, avatarUrl and bio, or `null` if the author is gone. -/
def authorDetailVal (a : Option User) : Val :=
  match a with
  | some u => .obj [("id", .num u.id), ("username", .str u.username),
      ("fullName", .str u.fullName), ("avatarUrl", .str u.avatarUrl), ("bio", .str u.bio)]
  | none => .null

/-- The author object of list responses (`part_008` lines 232-237):
id, username, fullName and avatarUrl, or `null`. -/
def authorSummaryVal (a : Option User) : Val :=
  match a with
  | some u => .obj [("id", .num u.id), ("username", .str u.username),
      ("fullName", .str u.fullName), ("avatarUrl", .str u.avatarUrl)]
  | none => .null

/-- The keys of a JSON object, in order. -/
def objKeys (o : List (String × Val)) : List String := o.map Prod.fst

/-- The keys of a response body when it is an object (empty otherwise). -/
def bodyKeys (r : Resp) : List String :=
  match r.body with
  | .obj o => objKeys o
  | _ => []

/-- The body of `POST /api/auth/register` after JSON decoding: the
`registerSchema` fields (`src/unnamed/part_009` lines 92-97). Optional
fields are the columns with database defaults. -/
structure RegisterBody where
  username : String
  password : String
  email : String
  fullName : String
  bio : Option String := none
  avatarUrl : Option String := none
  isPremium : Option Bool := none
  isAuthor : Option Bool := none
  confirmPassword : String

/-- The checks `registerSchema.parse` performs beyond typing, in zod's
order: the `confirmPassword` minimum length, then the refinement that the
passwords match; the result is the first error message, if any. -/
def registerValidate (b : RegisterBody) : Option String :=
  if b.confirmPassword.length < 6 then some "Password must be at least 6 characters"
  else if b.password ≠ b.confirmPassword then some "Passwords do not match"
  else none

/-- `POST /api/auth/register` (memory version, `part_008` lines 42-72).
Returns the response, the new storage state and the new session userId. -/
def registerRoute (st : Storage) (sess : Option Nat) (b : RegisterBody) :
    Resp × Storage × Option Nat :=
  match registerValidate b with
  | some m => (⟨400, msgObj m⟩, st, sess)
  | none =>
    match getUserByUsername st b.username with
    | some _ => (⟨400, msgObj "Username already taken"⟩, st, sess)
    | none =>
      match getUserByEmail st b.email with
      | some _ => (⟨400, msgObj "Email already registered"⟩, st, sess)
      | none =>
        let p := createUser st
          { id := 0, username := b.username, password := b.password,
            email := b.email, fullName := b.fullName, bio := b.bio.getD "",
            avatarUrl := b.avatarUrl.getD "", isPremium := b.isPremium.getD false,
            isAuthor := b.isAuthor.getD false }
        (⟨201, .obj (userObjNoPw p.2)⟩, p.1, some p.2.id)

/-- The body of `POST /api/auth/login` (`loginSchema`,
`src/unnamed/part_009` lines 87-90). -/
structure LoginBody where
  username : String
  password : String

/-- The checks `loginSchema.parse` performs beyond typing, in order. -/
def loginValidate (b : LoginBody) : Option String :=
  if b.username.length < 1 then some "Username is required"
  else if b.password.length < 6 then some "Password must be at least 6 characters"
  else none

/-- `POST /api/auth/login` (memory version, `part_008` lines 74-95).
Returns the response and the new session userId. -/
def loginRoute (st : Storage) (sess : Option Nat) (b : LoginBody) :
    Resp × Option Nat :=
  match loginValidate b with
  | some m => (⟨400, msgObj m⟩, sess)
  | none =>
    match getUserByUsername st b.username with
    | none => (⟨401, msgObj "Invalid username or password"⟩, sess)
    | some u =>
      if u.password ≠ b.password then (⟨401, msgObj "Invalid username or password"⟩, sess)
      else (⟨200, .obj (userObjNoPw u)⟩, some u.id)

/-- `GET /api/auth/me` (memory version, `part_008` lines 106-120). -/
def authMeRoute (st : Storage) (sess : Option Nat) : Resp :=
  match sess with
  | none => ⟨401, msgObj "Not authenticated"⟩
  | some userId =>
    match getUser st userId with
    | none => ⟨404, msgObj "User not found"⟩
    | some u => ⟨200, .obj (userObjNoPw u)⟩

/-- `GET /api/users/:id` (memory version, `part_008` lines 123-137). -/
def getUserRoute (st : Storage) (userId : Nat) : Resp :=
  match getUser st userId with
  | none => ⟨404, msgObj "User not found"⟩
  | some u => ⟨200, .obj (userObjNoPw u)⟩

/-- `PUT /api/users/:id` (memory version, `part_008` lines 139-173):
`sessUserId` is the authenticated session's userId (`requireAuth`). -/
def updateUserRoute (st : Storage) (sessUserId paramId : Nat)
    (fullName bio avatarUrl : Option String) : Resp × Storage :=
  if paramId ≠ sessUserId then
    (⟨403, msgObj "You can only update your own profile"⟩, st)
  else
    let p := updateUser st paramId
      { fullName := fullName, bio := bio, avatarUrl := avatarUrl }
    match p.2 with
    | none => (⟨404, msgObj "User not found"⟩, p.1)
    | some u => (⟨200, .obj (userObjNoPw u)⟩, p.1)

/-- `POST /api/users/:id/premium` (memory version, `part_008` lines 175-199). -/
def premiumRoute (st : Storage) (sessUserId paramId : Nat) : Resp × Storage :=
  if paramId ≠ sessUserId then
    (⟨403, msgObj "You can only update your own subscription"⟩, st)
  else
    let p := updateUser st paramId { isPremium := some true }
    match p.2 with
    | none => (⟨404, msgObj "User not found"⟩, p.1)
    | some u => (⟨200, .obj (userObjNoPw u)⟩, p.1)

/-- One element of the story list responses of `GET /api/stories`,
`GET /api/stories/featured` and `GET /api/bookmarks` (`part_008` lines
221-241, 261-281, 633-653): the story without its `content` plus
`averageRating`, `genres` and the author summary. -/
def storyListItem (st : Storage) (s : Story) : List (String × Val) :=
  omitKey "content" (storyFields s) ++
    [("averageRating", .num (getAverageRating st s.id)),
     ("genres", genresVal st s.id),
     ("author", authorSummaryVal (getUser st s.authorId))]

/-- One element of the `GET /api/stories/top-rated` response (`part_008`
lines 292-313): the story without its `content` plus `genres`,
`ratingCount` and the author summary. -/
def topRatedItem (st : Storage) (s : Story) : List (String × Val) :=
  omitKey "content" (storyFields s) ++
    [("genres", genresVal st s.id),
     ("ratingCount", .num ((getRatings st s.id).length)),
     ("author", authorSummaryVal (getUser st s.authorId))]

/-- `GET /api/stories` (memory version, `part_008` lines 203-249). -/
def getStoriesRoute (st : Storage) (q : StoryQuery) : Resp :=
  ⟨200, .arr ((getStories st q).map (fun s => .obj (storyListItem st s)))⟩

/-- `GET /api/stories/featured` (memory version, `part_008` lines 251-284). -/
def featuredStoriesRoute (st : Storage) (limit : Nat) : Resp :=
  ⟨200, .arr ((getFeaturedStories st limit).map (fun s => .obj (storyListItem st s)))⟩

/-- `GET /api/stories/top-rated` (memory version, `part_008` lines 286-319). -/
def topRatedStoriesRoute (st : Storage) (limit : Nat) : Resp :=
  ⟨200, .arr ((getTopRatedStories st limit).map (fun s => .obj (topRatedItem st s)))⟩

/-- `GET /api/bookmarks` (memory version, `part_008` lines 627-660). -/
def getBookmarksRoute (st : Storage) (userId : Nat) : Resp :=
  ⟨200, .arr ((getBookmarks st userId).map (fun s => .obj (storyListItem st s)))⟩

/-- `GET /api/stories/:id` (memory version, `part_008` lines 321-364).
`sess` is `req.session.userId`. -/
def getStoryRoute (st : Storage) (sess : Option Nat) (storyId : Nat) : Resp :=
  match getStory st storyId with
  | none => ⟨404, msgObj "Story not found"⟩
  | some story =>
    if !story.isPublished && (sess.isNone || sess != some story.authorId) then
      ⟨403, msgObj "This story is not published yet"⟩
    else
      let isBookmarked :=
        match sess with
        | some uid => (getBookmark st uid storyId).isSome
        | none => false
      ⟨200, .obj (storyFields story ++
        [("averageRating", .num (getAverageRating st storyId)),
         ("genres", genresVal st storyId),
         ("author", authorDetailVal (getUser st story.authorId)),
         ("ratingCount", .num ((getRatings st storyId).length)),
         ("isBookmarked", .bool isBookmarked)])⟩

/-- `GET /api/stories/:id` (Supabase version, `part_008` lines 1465-1511).
`sess` is `req.user?.id`; run over a storage state equivalent to the memory
version's (user ids numbered the same way). -/
def getStoryRouteSupabase (st : Storage) (sess : Option Nat) (storyId : Nat) : Resp :=
  match getStory st storyId with
  | none => ⟨404, msgObj "Story not found"⟩
  | some story =>
    if !story.isPublished && (sess.isNone || sess != some story.authorId) then
      ⟨403, msgObj "This story is not published yet"⟩
    else
      let userRating :=
        match sess with
        | some uid =>
          match getRating st uid storyId with
          | some r => Val.obj (ratingFieldsSB r)
          | none => Val.null
        | none => Val.null
      let isBookmarked :=
        match sess with
        | some uid => (getBookmark st uid storyId).isSome
        | none => false
      ⟨200, .obj (storyFieldsSB story ++
        [("avgRating", .num (getAverageRating st storyId)),
         ("genres", genresVal st storyId),
         ("author", authorDetailVal (getUser st story.authorId)),
         ("ratingCount", .num ((getRatings st storyId).length)),
         ("userRating", userRating),
         ("isBookmarked", .bool isBookmarked)])⟩

/-- The body of `POST /api/stories` after JSON decoding: the
`publishStorySchema` fields (`src/unnamed/part_009` lines 96-99). -/
structure PublishBody where
  title : String
  description : String
  content : String
  coverImage : Option String := none
  authorId : Nat
  isPremium : Option Bool := none
  isPublished : Option Bool := none
  isShortStory : Option Bool := none
  genreIds : List Nat

/-- The checks `publishStorySchema.parse` performs beyond typing, in zod's
shape-key order (`content` is declared before `genreIds`); the result is
the first error message, if any. -/
def publishValidate (b : PublishBody) : Option String :=
  if b.content.length < 100 then some "Story content must be at least 100 characters"
  else if b.genreIds.isEmpty then some "At least one genre is required"
  else none

/-- The "make sure user has author role" step of `POST /api/stories`
(`part_008` lines 375-378): flip `isAuthor` to true unless already set. -/
def ensureAuthor (st : Storage) (userId : Nat) (user : User) : Storage :=
  if user.isAuthor then st else (updateUser st userId { isAuthor := some true }).1

/-- `POST /api/stories` (memory version, `part_008` lines 366-418):
the authenticated user is made an author if not yet one, the body is
validated, free-tier publishing limits are enforced, and only then is the
story created and its genres attached. -/
def publishStoryRoute (st : Storage) (userId : Nat) (b : PublishBody) :
    Resp × Storage :=
  match getUser st userId with
  | none => (⟨404, msgObj "User not found"⟩, st)
  | some user =>
    let st1 := ensureAuthor st userId user
    match publishValidate b with
    | some m => (⟨400, msgObj m⟩, st1)
    | none =>
      if !user.isPremium && b.isShortStory.getD false &&
          decide (1 ≤ countAuthorStories st1 userId true) then
        (⟨403, msgObj "Free users can only publish 1 short story"⟩, st1)
      else if !user.isPremium && !(b.isShortStory.getD false) &&
          decide (1 ≤ countAuthorStories st1 userId false) then
        (⟨403, msgObj "Free users can only publish 1 novel"⟩, st1)
      else
        let p := createStory st1 b.title b.description b.content b.coverImage
          userId b.isPremium b.isPublished b.isShortStory
        let st3 := addStoryGenres p.1 p.2.id b.genreIds
        (⟨201, .obj (storyFields p.2)⟩, st3)

/-- `POST /api/stories/:id/rate` (memory version, `part_008` lines 498-541):
upsert the authenticated user's rating of the story, then respond with the
stored rating and the recomputed average. `JSON.stringify` drops a key whose
value is `undefined`, hence the keyless branch when `updateRating` found no
row. -/
def rateStoryRoute (st : Storage) (userId storyId rating : Nat)
    (review : Option String) : Resp × Storage :=
  match getStory st storyId with
  | none => (⟨404, msgObj "Story not found"⟩, st)
  | some _ =>
    match getRating st userId storyId with
    | some ex =>
      let p := updateRating st ex.id rating review
      let body :=
        match p.2 with
        | some r => [("rating", Val.obj (ratingFields r)),
                     ("averageRating", Val.num (getAverageRating p.1 storyId))]
        | none => [("averageRating", Val.num (getAverageRating p.1 storyId))]
      (⟨200, .obj body⟩, p.1)
    | none =>
      let p := createRating st userId storyId rating review
      (⟨200, .obj [("rating", Val.obj (ratingFields p.2)),
                   ("averageRating", Val.num (getAverageRating p.1 storyId))]⟩, p.1)

/-- `POST /api/stories/:id/bookmark` (memory version, `part_008` lines
575-605): create the bookmark, or reject with 400 when it already exists. -/
def bookmarkStoryRoute (st : Storage) (userId storyId : Nat) : Resp × Storage :=
  match getStory st storyId with
  | none => (⟨404, msgObj "Story not found"⟩, st)
  | some _ =>
    match getBookmark st userId storyId with
    | some _ => (⟨400, msgObj "Story already bookmarked"⟩, st)
    | none =>
      let p := createBookmark st userId storyId
      (⟨201, .obj (bookmarkFields p.2)⟩, p.1)

/-- `DELETE /api/stories/:id/bookmark` (memory version, `part_008` lines
607-625): remove the bookmark, or 404 when there is none. -/
def unbookmarkStoryRoute (st : Storage) (userId storyId : Nat) : Resp × Storage :=
  let p := deleteBookmark st userId storyId
  if p.2 then (⟨200, msgObj "Bookmark removed successfully"⟩, p.1)
  else (⟨404, msgObj "Bookmark not found"⟩, p.1)

/-! ### Helper lemmas -/

theorem find?_map_of_find? {α : Type _} {p : α → Bool} {f : α → α} {l : List α} {x : α}
    (hx : l.find? p = some x) (hp : ∀ y, p (f y) = p y) :
    (l.map f).find? p = some (f x) := by
  induction l with
  | nil => simp at hx
  | cons a as ih =>
    by_cases h : p a = true
    · rw [List.find?_cons_of_pos (p := p) _ h] at hx
      injection hx with hx
      subst hx
      rw [List.map_cons, List.find?_cons_of_pos (p := p)]
      rw [hp]; exact h
    · rw [List.find?_cons_of_neg (p := p) _ h] at hx
      rw [List.map_cons, List.find?_cons_of_neg (p := p)]
      · exact ih hx
      · rw [hp]; exact h

theorem find?_id_of_mem {l : List Rating} {x : Rating}
    (hm : x ∈ l) (hnd : (l.map Rating.id).Nodup) :
    l.find? (fun r => r.id == x.id) = some x := by
  induction l with
  | nil => simp at hm
  | cons a as ih =>
    rcases List.mem_cons.mp hm with h | h
    · subst h
      rw [List.find?_cons_of_pos (p := fun (r : Rating) => r.id == x.id)]
      simp
    · by_cases hid : (a.id == x.id) = true
      · exfalso
        have hx : x.id ∈ as.map Rating.id := List.mem_map_of_mem _ h
        rw [List.map_cons] at hnd
        have := (List.nodup_cons.mp hnd).1
        rw [beq_iff_eq] at hid
        rw [hid] at this
        exact this hx
      · rw [List.find?_cons_of_neg (p := fun (r : Rating) => r.id == x.id) _ hid]
        rw [List.map_cons] at hnd
        exact ih h (List.nodup_cons.mp hnd).2

theorem userObjNoPw_eq (u : User) : userObjNoPw u =
    [("id", .num u.id), ("username", .str u.username), ("email", .str u.email),
     ("fullName", .str u.fullName), ("bio", .str u.bio), ("avatarUrl", .str u.avatarUrl),
     ("isPremium", .bool u.isPremium), ("isAuthor", .bool u.isAuthor)] := rfl

theorem bodyKeys_msgObj (n : Nat) (m : String) :
    bodyKeys ⟨n, msgObj m⟩ = ["message"] := rfl

theorem bodyKeys_userObjNoPw (n : Nat) (u : User) :
    bodyKeys ⟨n, .obj (userObjNoPw u)⟩ =
      ["id", "username", "email", "fullName", "bio", "avatarUrl", "isPremium", "isAuthor"] := rfl

theorem pw_notin_msg {n : Nat} {m : String} :
    "password" ∉ bodyKeys (⟨n, msgObj m⟩ : Resp) := by
  rw [bodyKeys_msgObj]; decide

theorem pw_notin_user {n : Nat} {u : User} :
    "password" ∉ bodyKeys (⟨n, .obj (userObjNoPw u)⟩ : Resp) := by
  rw [bodyKeys_userObjNoPw]; decide

theorem updateUser_stories (st : Storage) (id : Nat) (d : UserUpdate) :
    (updateUser st id d).1.stories = st.stories := by
  unfold updateUser
  cases st.users.find? (fun u => u.id == id) <;> rfl

theorem countAuthorStories_updateUser (st : Storage) (id : Nat) (d : UserUpdate)
    (a : Nat) (sh : Bool) :
    countAuthorStories (updateUser st id d).1 a sh = countAuthorStories st a sh := by
  unfold countAuthorStories
  rw [updateUser_stories]

def samePW (u v : User) : Prop := v = { u with password := v.password }

def pwEquiv (st st' : Storage) : Prop :=
  List.Forall₂ samePW st.users st'.users ∧ st.stories = st'.stories ∧
  st.genres = st'.genres ∧ st.storyGenres = st'.storyGenres ∧
  st.ratings = st'.ratings ∧ st.bookmarks = st'.bookmarks

theorem samePW_id {u v : User} (h : samePW u v) : v.id = u.id := by
  rw [h]

theorem userObjNoPw_samePW {u v : User} (h : samePW u v) :
    userObjNoPw u = userObjNoPw v := by
  rw [h]
  rfl

theorem userResp_congr {l l' : List User} (h : List.Forall₂ samePW l l') (i : Nat) :
    (match l.find? (fun u => u.id == i) with
     | none => (⟨404, msgObj "User not found"⟩ : Resp)
     | some u => ⟨200, .obj (userObjNoPw u)⟩) =
    (match l'.find? (fun u => u.id == i) with
     | none => (⟨404, msgObj "User not found"⟩ : Resp)
     | some u => ⟨200, .obj (userObjNoPw u)⟩) := by
  induction h with
  | nil => rfl
  | @cons a b as bs hab hl ih =>
    by_cases hp : (a.id == i) = true
    · rw [List.find?_cons_of_pos (p := fun (u : User) => u.id == i) _ hp,
          List.find?_cons_of_pos (p := fun (u : User) => u.id == i)]
      · simp only
        rw [userObjNoPw_samePW hab]
      · rw [samePW_id hab]; exact hp
    · rw [List.find?_cons_of_neg (p := fun (u : User) => u.id == i) _ hp,
          List.find?_cons_of_neg (p := fun (u : User) => u.id == i)]
      · exact ih
      · rw [samePW_id hab]; exact hp

theorem getUser_updateUser (st : Storage) (id : Nat) (d : UserUpdate) (u : User)
    (h : getUser st id = some u) :
    getUser (updateUser st id d).1 id = some (applyUserUpdate u d) := by
  unfold getUser at h
  have hpu : (u.id == id) = true := List.find?_some (p := fun (v : User) => v.id == id) h
  unfold getUser updateUser
  rw [h]
  simp only
  have hmap := find?_map_of_find?
    (f := fun v => if v.id == id then applyUserUpdate v d else v) h
    (fun y => by by_cases hy : (y.id == id) = true <;> simp [hy, applyUserUpdate])
  rw [hmap]
  simp only []
  rw [if_pos hpu]

/-! ### Concrete fixtures used by witnesses and counterexamples -/

def wAlice : User :=
  { id := 1, username := "alice", password := "wonder77", email := "alice@example.com",
    fullName := "Alice Auth", bio := "", avatarUrl := "", isPremium := false, isAuthor := true }

def wBob : User :=
  { id := 2, username := "bob", password := "builder88", email := "bob@example.com",
    fullName := "Bob Book", bio := "", avatarUrl := "", isPremium := true, isAuthor := false }

def wStory1 : Story :=
  { id := 1, title := "Published", description := "d1", content := "c1", coverImage := "",
    authorId := 1, isPremium := false, isPublished := true, isShortStory := false,
    createdAt := 10, updatedAt := 10 }

def wStory2 : Story :=
  { id := 2, title := "Draft", description := "d2", content := "c2", coverImage := "",
    authorId := 1, isPremium := false, isPublished := false, isShortStory := true,
    createdAt := 11, updatedAt := 11 }

def wGenre : Genre := { id := 1, name := "Fantasy", description := "g", icon := "sparkles" }

def wRating : Rating :=
  { id := 1, userId := 2, storyId := 1, rating := 4, review := "nice", createdAt := 12 }

def wBookmark : Bookmark := { id := 1, userId := 2, storyId := 1, createdAt := 13 }

def wSt : Storage :=
  { users := [wAlice, wBob], stories := [wStory1, wStory2], genres := [wGenre],
    storyGenres := [{ storyId := 1, genreId := 1 }], ratings := [wRating],
    bookmarks := [wBookmark], nextUserId := 3, nextStoryId := 3, nextRatingId := 2,
    nextBookmarkId := 2, now := 100 }

/-- C3: `GET /api/stories/:id` (memory version) returns 404 when the story
does not exist; 403 with "This story is not published yet" when it exists
unpublished and the requester is not its author; and otherwise the story with
its average rating, genres, author summary, rating count and bookmark
status. -/
theorem draftGateC3 (st : Storage) (sess : Option Nat) (storyId : Nat) :
    (getStory st storyId = none →
       getStoryRoute st sess storyId = ⟨404, msgObj "Story not found"⟩) ∧
    (∀ story, getStory st storyId = some story → story.isPublished = false →
       sess ≠ some story.authorId →
       getStoryRoute st sess storyId = ⟨403, msgObj "This story is not published yet"⟩) ∧
    (∀ story, getStory st storyId = some story →
       story.isPublished = true ∨ sess = some story.authorId →
       getStoryRoute st sess storyId = ⟨200, .obj (storyFields story ++
         [("averageRating", .num (getAverageRating st storyId)),
          ("genres", genresVal st storyId),
          ("author", authorDetailVal (getUser st story.authorId)),
          ("ratingCount", .num ((getRatings st storyId).length)),
          ("isBookmarked", .bool (match sess with
             | some uid => (getBookmark st uid storyId).isSome
             | none => false))])⟩) := by
  refine ⟨fun h => ?_, fun story h hp hn => ?_, fun story h hor => ?_⟩
  · simp only [getStoryRoute, h]
  · simp only [getStoryRoute, h]
    rw [if_pos]
    rw [hp]
    cases sess with
    | none => simp
    | some uid =>
      simp only [Bool.not_false, Option.isNone_some, Bool.false_or, Bool.true_and]
      simp only [bne_iff_ne]
      exact fun hh => hn (by rw [hh])
  · simp only [getStoryRoute, h]
    rw [if_neg]
    rcases hor with hp | hs
    · rw [hp]; simp
    · rw [hs]; simp

/-- C3 witness: the three branches exercised on a concrete state. -/
theorem draftGateC3_witness :
    getStory wSt 9 = none ∧ (getStoryRoute wSt none 9).status = 404 ∧
    getStory wSt 2 = some wStory2 ∧ wStory2.isPublished = false ∧
    (none : Option Nat) ≠ some wStory2.authorId ∧
    (getStoryRoute wSt none 2).status = 403 ∧
    getStory wSt 1 = some wStory1 ∧ wStory1.isPublished = true ∧
    (getStoryRoute wSt none 1).status = 200 :=
  ⟨by decide,
   congrArg Resp.status ((draftGateC3 wSt none 9).1 (by decide)),
   by decide, by decide, by decide,
   congrArg Resp.status ((draftGateC3 wSt none 2).2.1 wStory2 (by decide) (by decide) (by decide)),
   by decide, by decide,
   congrArg Resp.status ((draftGateC3 wSt none 1).2.2 wStory1 (by decide) (Or.inl (by decide)))⟩

/-- C7 counterexample: on a concrete stored state the two versions of
`GET /api/stories/:id` answer with the same status but their response bodies
do not have the same fields: only the memory version has `averageRating`
(the Supabase version calls it `avgRating`) and only the Supabase version has
`userRating`. -/
theorem routeEquivC7_counterexample :
    (getStoryRoute wSt none 1).status = (getStoryRouteSupabase wSt none 1).status ∧
    bodyKeys (getStoryRoute wSt none 1) ≠ bodyKeys (getStoryRouteSupabase wSt none 1) ∧
    "averageRating" ∈ bodyKeys (getStoryRoute wSt none 1) ∧
    "averageRating" ∉ bodyKeys (getStoryRouteSupabase wSt none 1) ∧
    "userRating" ∈ bodyKeys (getStoryRouteSupabase wSt none 1) ∧
    "userRating" ∉ bodyKeys (getStoryRoute wSt none 1) := by decide

/-- C7 (amended): the two versions of `GET /api/stories/:id` compute the same
status code over every equivalent stored state (their success bodies differ
in fields, as the counterexample shows). -/
theorem routeEquivC7_amended (st : Storage) (sess : Option Nat) (storyId : Nat) :
    (getStoryRoute st sess storyId).status = (getStoryRouteSupabase st sess storyId).status := by
  unfold getStoryRoute getStoryRouteSupabase
  cases h : getStory st storyId with
  | none => rfl
  | some story =>
    dsimp only
    by_cases hc : (!story.isPublished && (sess.isNone || sess != some story.authorId)) = true
    · rw [if_pos hc, if_pos hc]
    · rw [if_neg hc, if_neg hc]

/-- C4 counterexample: on a concrete state where user 2 already has a
bookmark on story 1, a second bookmark request does not remove it: the POST
handler answers 400 "Story already bookmarked" and leaves the stored state
unchanged, so a single bookmark request fails rather than toggling. -/
theorem bookmarkToggleC4_counterexample :
    getStory wSt 1 = some wStory1 ∧
    getBookmark wSt 2 1 = some wBookmark ∧
    (bookmarkStoryRoute wSt 2 1).1.status = 400 ∧
    (bookmarkStoryRoute wSt 2 1).2 = wSt ∧
    getBookmark (bookmarkStoryRoute wSt 2 1).2 2 1 = some wBookmark := by decide

/-- C4 (amended): bookmarking toggles across a pair of endpoints rather than
through repeated invocation of one: for an existing story,
`POST /api/stories/:id/bookmark` creates the bookmark (201) when none exists
and rejects with 400 "Story already bookmarked" leaving state unchanged when
one exists; the separate `DELETE /api/stories/:id/bookmark` removes an
existing bookmark, returning the state to no bookmark, and answers 404 when
there is none. -/
theorem bookmarkToggleC4_amended (st : Storage) (userId storyId : Nat) (story : Story)
    (hs : getStory st storyId = some story) :
    (getBookmark st userId storyId = none →
       (bookmarkStoryRoute st userId storyId).1.status = 201 ∧
       getBookmark (bookmarkStoryRoute st userId storyId).2 userId storyId =
         some { id := st.nextBookmarkId, userId := userId, storyId := storyId,
                createdAt := st.now }) ∧
    (∀ b, getBookmark st userId storyId = some b →
       bookmarkStoryRoute st userId storyId = (⟨400, msgObj "Story already bookmarked"⟩, st)) ∧
    (∀ b, getBookmark st userId storyId = some b →
       (unbookmarkStoryRoute st userId storyId).1 = ⟨200, msgObj "Bookmark removed successfully"⟩ ∧
       getBookmark (unbookmarkStoryRoute st userId storyId).2 userId storyId = none) ∧
    (getBookmark st userId storyId = none →
       (unbookmarkStoryRoute st userId storyId).1 = ⟨404, msgObj "Bookmark not found"⟩) := by
  refine ⟨fun h => ⟨?_, ?_⟩, fun b hb => ?_, fun b hb => ⟨?_, ?_⟩, fun h => ?_⟩
  · simp only [bookmarkStoryRoute, hs, h]
  · simp only [bookmarkStoryRoute, hs, h, createBookmark]
    unfold getBookmark at h ⊢
    simp only
    rw [List.find?_append, h]
    simp
  · simp only [bookmarkStoryRoute, hs, hb]
  · simp only [unbookmarkStoryRoute, deleteBookmark, hb]
    simp
  · simp only [unbookmarkStoryRoute, deleteBookmark, hb]
    simp only [if_true]
    unfold getBookmark
    simp only
    rw [List.find?_eq_none]
    intro x hx
    have hmem := List.of_mem_filter hx
    simp at hmem ⊢
    intro h1
    rcases hmem with h2 | h2
    · exact absurd h1 h2
    · exact h2
  · simp only [unbookmarkStoryRoute, deleteBookmark, h]
    simp

/-- C4 witness: both POST branches and both DELETE branches exercised on the
concrete state. -/
theorem bookmarkToggleC4_witness :
    getStory wSt 1 = some wStory1 ∧ getBookmark wSt 1 1 = none ∧
    (bookmarkStoryRoute wSt 1 1).1.status = 201 ∧
    getBookmark wSt 2 1 = some wBookmark ∧
    (unbookmarkStoryRoute wSt 2 1).1 = ⟨200, msgObj "Bookmark removed successfully"⟩ ∧
    getBookmark (unbookmarkStoryRoute wSt 2 1).2 2 1 = none :=
  ⟨by decide, by decide,
   ((bookmarkToggleC4_amended wSt 1 1 wStory1 (by decide)).1 (by decide)).1,
   by decide,
   ((bookmarkToggleC4_amended wSt 2 1 wStory1 (by decide)).2.2.1 wBookmark (by decide)).1,
   ((bookmarkToggleC4_amended wSt 2 1 wStory1 (by decide)).2.2.1 wBookmark (by decide)).2⟩

theorem ensureAuthor_stories (st : Storage) (userId : Nat) (user : User) :
    (ensureAuthor st userId user).stories = st.stories := by
  unfold ensureAuthor
  split
  · rfl
  · rw [updateUser_stories]

theorem countAuthorStories_ensureAuthor (st : Storage) (userId : Nat) (user : User)
    (a : Nat) (sh : Bool) :
    countAuthorStories (ensureAuthor st userId user) a sh = countAuthorStories st a sh := by
  unfold countAuthorStories
  rw [ensureAuthor_stories]

theorem publishStoryRoute_users (st : Storage) (userId : Nat) (b : PublishBody) (user : User)
    (hu : getUser st userId = some user) :
    (publishStoryRoute st userId b).2.users = (ensureAuthor st userId user).users := by
  simp only [publishStoryRoute, hu]
  split
  · rfl
  · split
    · rfl
    · split
      · rfl
      · rfl

/-- C2: free-tier publishing limits of `POST /api/stories` (memory version):
a non-premium user publishing a short story while already having one, or a
novel while already having one, is rejected with 403 and the matching
message, and no story is created; a premium user with a valid body is never
rejected by this limit and gets 201. -/
theorem membershipLimitsC2 (st : Storage) (userId : Nat) (b : PublishBody) (user : User)
    (hu : getUser st userId = some user) (hv : publishValidate b = none) :
    (user.isPremium = false → b.isShortStory.getD false = true →
       1 ≤ countAuthorStories st userId true →
       (publishStoryRoute st userId b).1 = ⟨403, msgObj "Free users can only publish 1 short story"⟩ ∧
       (publishStoryRoute st userId b).2.stories = st.stories) ∧
    (user.isPremium = false → b.isShortStory.getD false = false →
       1 ≤ countAuthorStories st userId false →
       (publishStoryRoute st userId b).1 = ⟨403, msgObj "Free users can only publish 1 novel"⟩ ∧
       (publishStoryRoute st userId b).2.stories = st.stories) ∧
    (user.isPremium = true → (publishStoryRoute st userId b).1.status = 201) := by
  refine ⟨fun hp hsh hc => ?_, fun hp hsh hc => ?_, fun hp => ?_⟩ <;>
    simp only [publishStoryRoute, hu, hv]
  · split
    · exact ⟨rfl, ensureAuthor_stories st userId user⟩
    · rename_i hcond
      exfalso
      apply hcond
      simp [hp, hsh, countAuthorStories_ensureAuthor, hc]
  · split
    · rename_i hcond
      exfalso
      rw [hsh] at hcond
      simp at hcond
    · split
      · exact ⟨rfl, ensureAuthor_stories st userId user⟩
      · rename_i hcond
        exfalso
        apply hcond
        simp [hp, hsh, countAuthorStories_ensureAuthor, hc]
  · split
    · rename_i hcond
      rw [hp] at hcond
      simp at hcond
    · split
      · rename_i hcond
        rw [hp] at hcond
        simp at hcond
      · rfl

/-- A story body long enough for the 100-character content minimum. -/
def longContent : String :=
  "This content is intentionally made long enough to satisfy the one hundred character minimum imposed by the publish story schema."

/-- A valid novel-publishing body (no `isShortStory` flag, one genre). -/
def wBody : PublishBody :=
  { title := "New Novel", description := "nd", content := longContent,
    authorId := 1, genreIds := [1] }

/-- A valid short-story-publishing body. -/
def wShortBody : PublishBody :=
  { wBody with title := "New Short", isShortStory := some true }

/-- A body whose content is under 100 characters. -/
def wShortContentBody : PublishBody :=
  { title := "Tiny", description := "td", content := "way too short",
    authorId := 1, genreIds := [1] }

/-- A body with long content but no genres. -/
def wNoGenreBody : PublishBody :=
  { wBody with genreIds := [] }

set_option maxRecDepth 40000 in
/-- C2 witness: the free user (id 1) already has one short story and one
novel, so both 403 branches fire; the premium user (id 2) gets 201. -/
theorem membershipLimitsC2_witness :
    getUser wSt 1 = some wAlice ∧ publishValidate wShortBody = none ∧
    wAlice.isPremium = false ∧ wShortBody.isShortStory.getD false = true ∧
    1 ≤ countAuthorStories wSt 1 true ∧
    (publishStoryRoute wSt 1 wShortBody).1 = ⟨403, msgObj "Free users can only publish 1 short story"⟩ ∧
    wBody.isShortStory.getD false = false ∧ 1 ≤ countAuthorStories wSt 1 false ∧
    (publishStoryRoute wSt 1 wBody).1 = ⟨403, msgObj "Free users can only publish 1 novel"⟩ ∧
    getUser wSt 2 = some wBob ∧ wBob.isPremium = true ∧
    (publishStoryRoute wSt 2 wBody).1.status = 201 :=
  ⟨by decide, by decide, by decide, by decide, by decide,
   ((membershipLimitsC2 wSt 1 wShortBody wAlice (by decide) (by decide)).1
      (by decide) (by decide) (by decide)).1,
   by decide, by decide,
   ((membershipLimitsC2 wSt 1 wBody wAlice (by decide) (by decide)).2.1
      (by decide) (by decide) (by decide)).1,
   by decide, by decide,
   (membershipLimitsC2 wSt 2 wBody wBob (by decide) (by decide)).2.2 (by decide)⟩

/-- C5: `POST /api/stories` (memory version) rejects with 400 and the first
zod validation message any body whose content is under 100 characters or
whose genre list is empty, creating no story; a body with at least one genre
and content of at least 100 characters passes this validation. -/
theorem publishValidationC5 (st : Storage) (userId : Nat) (b : PublishBody) (user : User)
    (hu : getUser st userId = some user) :
    (b.content.length < 100 →
       (publishStoryRoute st userId b).1 = ⟨400, msgObj "Story content must be at least 100 characters"⟩ ∧
       (publishStoryRoute st userId b).2.stories = st.stories) ∧
    (100 ≤ b.content.length → b.genreIds = [] →
       (publishStoryRoute st userId b).1 = ⟨400, msgObj "At least one genre is required"⟩ ∧
       (publishStoryRoute st userId b).2.stories = st.stories) ∧
    (100 ≤ b.content.length → b.genreIds ≠ [] → publishValidate b = none) := by
  refine ⟨fun hlen => ?_, fun hlen hg => ?_, fun hlen hg => ?_⟩
  · have hv : publishValidate b = some "Story content must be at least 100 characters" := by
      unfold publishValidate
      rw [if_pos hlen]
    simp only [publishStoryRoute, hu, hv]
    exact ⟨trivial, ensureAuthor_stories st userId user⟩
  · have hv : publishValidate b = some "At least one genre is required" := by
      unfold publishValidate
      rw [if_neg (not_lt.mpr hlen), if_pos (by rw [hg]; rfl)]
    simp only [publishStoryRoute, hu, hv]
    exact ⟨trivial, ensureAuthor_stories st userId user⟩
  · unfold publishValidate
    rw [if_neg (not_lt.mpr hlen), if_neg (by simp [hg])]

set_option maxRecDepth 40000 in
/-- C5 witness: a short-content body and a no-genre body are both rejected
with the matching first message and create no story; the valid body passes
validation. -/
theorem publishValidationC5_witness :
    getUser wSt 1 = some wAlice ∧ wShortContentBody.content.length < 100 ∧
    (publishStoryRoute wSt 1 wShortContentBody).1 = ⟨400, msgObj "Story content must be at least 100 characters"⟩ ∧
    (publishStoryRoute wSt 1 wShortContentBody).2.stories = wSt.stories ∧
    100 ≤ wNoGenreBody.content.length ∧ wNoGenreBody.genreIds = [] ∧
    (publishStoryRoute wSt 1 wNoGenreBody).1 = ⟨400, msgObj "At least one genre is required"⟩ ∧
    100 ≤ wBody.content.length ∧ wBody.genreIds ≠ [] ∧ publishValidate wBody = none :=
  ⟨by decide, by decide,
   ((publishValidationC5 wSt 1 wShortContentBody wAlice (by decide)).1 (by decide)).1,
   ((publishValidationC5 wSt 1 wShortContentBody wAlice (by decide)).1 (by decide)).2,
   by decide, by decide,
   ((publishValidationC5 wSt 1 wNoGenreBody wAlice (by decide)).2.1 (by decide) (by decide)).1,
   by decide, by decide,
   (publishValidationC5 wSt 1 wBody wAlice (by decide)).2.2 (by decide) (by decide)⟩

theorem ensureAuthor_users_false (st : Storage) (userId : Nat) (user : User)
    (hu : getUser st userId = some user) (ha : user.isAuthor = false) :
    (ensureAuthor st userId user).users =
      st.users.map (fun v => if v.id == userId then applyUserUpdate v { isAuthor := some true } else v) := by
  unfold ensureAuthor
  rw [if_neg (by simp [ha])]
  unfold getUser at hu
  unfold updateUser
  rw [hu]

/-- C8: `POST /api/stories` (memory version) flips the authenticated user's
`isAuthor` flag to true before body validation and limit checks, so the flag
is set in every outcome of the request (including 400 and 403 rejections),
and no other field of any user is modified; when the flag is already true
the users table is untouched. -/
theorem authorFlagC8 (st : Storage) (userId : Nat) (b : PublishBody) (user : User)
    (hu : getUser st userId = some user) :
    (user.isAuthor = false →
       (publishStoryRoute st userId b).2.users =
         st.users.map (fun v => if v.id == userId then applyUserUpdate v { isAuthor := some true } else v) ∧
       getUser (publishStoryRoute st userId b).2 userId = some { user with isAuthor := true }) ∧
    (user.isAuthor = true → (publishStoryRoute st userId b).2.users = st.users) := by
  constructor
  · intro ha
    have husers := publishStoryRoute_users st userId b user hu
    rw [ensureAuthor_users_false st userId user hu ha] at husers
    refine ⟨husers, ?_⟩
    unfold getUser
    rw [husers]
    unfold getUser at hu
    have hpu : (user.id == userId) = true :=
      List.find?_some (p := fun (v : User) => v.id == userId) hu
    rw [find?_map_of_find? hu
      (fun y => by by_cases hy : (y.id == userId) = true <;> simp [hy, applyUserUpdate])]
    rw [if_pos hpu]
    rfl
  · intro ha
    have husers := publishStoryRoute_users st userId b user hu
    rw [husers]
    unfold ensureAuthor
    rw [if_pos (by simp [ha])]

/-- C8 witness: user 2 has `isAuthor = false`; a request rejected with 400
(content too short) still flips the flag and changes nothing else. -/
theorem authorFlagC8_witness :
    getUser wSt 2 = some wBob ∧ wBob.isAuthor = false ∧
    (publishStoryRoute wSt 2 wShortContentBody).1.status = 400 ∧
    getUser (publishStoryRoute wSt 2 wShortContentBody).2 2 = some { wBob with isAuthor := true } ∧
    (publishStoryRoute wSt 2 wShortContentBody).2.users =
      wSt.users.map (fun v => if v.id == 2 then applyUserUpdate v { isAuthor := some true } else v) :=
  ⟨by decide, by decide, by decide,
   ((authorFlagC8 wSt 2 wShortContentBody wBob (by decide)).1 (by decide)).2,
   ((authorFlagC8 wSt 2 wShortContentBody wBob (by decide)).1 (by decide)).1⟩

/-- The user record `POST /api/auth/register` stores on success: the body
minus `confirmPassword`, with schema defaults applied and the next id. -/
def newUserOf (st : Storage) (b : RegisterBody) : User :=
  { id := st.nextUserId, username := b.username, password := b.password,
    email := b.email, fullName := b.fullName, bio := b.bio.getD "",
    avatarUrl := b.avatarUrl.getD "", isPremium := b.isPremium.getD false,
    isAuthor := b.isAuthor.getD false }

/-- C6: `POST /api/auth/register` (memory version) rejects a taken username
with 400 "Username already taken" and a registered email with 400
"Email already registered", in both cases creating no user and leaving the
session unchanged; otherwise it creates the user, sets the session userId to
the new id, and answers 201 with the created user (password stripped). -/
theorem registerSessionC6 (st : Storage) (sess : Option Nat) (b : RegisterBody)
    (hv : registerValidate b = none) :
    (∀ w, getUserByUsername st b.username = some w →
       registerRoute st sess b = (⟨400, msgObj "Username already taken"⟩, st, sess)) ∧
    (getUserByUsername st b.username = none →
     ∀ w, getUserByEmail st b.email = some w →
       registerRoute st sess b = (⟨400, msgObj "Email already registered"⟩, st, sess)) ∧
    (getUserByUsername st b.username = none → getUserByEmail st b.email = none →
       registerRoute st sess b =
         (⟨201, .obj (userObjNoPw (newUserOf st b))⟩,
          { st with users := st.users ++ [newUserOf st b], nextUserId := st.nextUserId + 1 },
          some (newUserOf st b).id)) := by
  refine ⟨fun w hw => ?_, fun hn w he => ?_, fun hn he => ?_⟩
  · simp only [registerRoute, hv, hw]
  · simp only [registerRoute, hv, hn, he]
  · simp only [registerRoute, hv, hn, he, createUser, newUserOf]

/-- A registration body whose username is already taken in `wSt`. -/
def wRegTaken : RegisterBody :=
  { username := "alice", password := "pw123456", email := "fresh@example.com",
    fullName := "Fresh", confirmPassword := "pw123456" }

/-- A registration body whose email is already registered in `wSt`. -/
def wRegEmail : RegisterBody :=
  { wRegTaken with username := "carol", email := "bob@example.com" }

/-- A registration body that succeeds on `wSt`. -/
def wRegNew : RegisterBody :=
  { wRegTaken with username := "carol", email := "carol@example.com" }

/-- C6 witness: all three branches on the concrete state. -/
theorem registerSessionC6_witness :
    registerValidate wRegTaken = none ∧
    getUserByUsername wSt wRegTaken.username = some wAlice ∧
    registerRoute wSt none wRegTaken = (⟨400, msgObj "Username already taken"⟩, wSt, none) ∧
    registerValidate wRegEmail = none ∧
    getUserByUsername wSt wRegEmail.username = none ∧
    getUserByEmail wSt wRegEmail.email = some wBob ∧
    registerRoute wSt none wRegEmail = (⟨400, msgObj "Email already registered"⟩, wSt, none) ∧
    registerValidate wRegNew = none ∧
    (registerRoute wSt none wRegNew).2.2 = some wSt.nextUserId ∧
    (registerRoute wSt none wRegNew).1.status = 201 :=
  ⟨by decide, by decide,
   (registerSessionC6 wSt none wRegTaken (by decide)).1 wAlice (by decide),
   by decide, by decide, by decide,
   (registerSessionC6 wSt none wRegEmail (by decide)).2.1 (by decide) wBob (by decide),
   by decide,
   congrArg (fun t => t.2.2) ((registerSessionC6 wSt none wRegNew (by decide)).2.2 (by decide) (by decide)),
   congrArg (fun t => t.1.status) ((registerSessionC6 wSt none wRegNew (by decide)).2.2 (by decide) (by decide))⟩

/-- C1: `POST /api/stories/:id/rate` (memory version) keeps at most one
rating per (user, story) pair: on a well-formed state (distinct rating ids)
and an existing story, when the user already has a rating the handler
rewrites that record in place (same id, same position, same list length) and
when none exists it appends exactly one new record; in both cases the
response carries the stored rating and the average recomputed on the updated
state. -/
theorem ratingUpsertC1 (st : Storage) (userId storyId rating : Nat) (review : Option String)
    (story : Story) (hs : getStory st storyId = some story)
    (hnd : (st.ratings.map Rating.id).Nodup) :
    (∀ ex, getRating st userId storyId = some ex →
       (rateStoryRoute st userId storyId rating review).2.ratings.length = st.ratings.length ∧
       getRating (rateStoryRoute st userId storyId rating review).2 userId storyId =
         some { ex with rating := rating, review := review.getD ex.review } ∧
       (rateStoryRoute st userId storyId rating review).1 =
         ⟨200, .obj [("rating", .obj (ratingFields
                        { ex with rating := rating, review := review.getD ex.review })),
                     ("averageRating", .num (getAverageRating
                        (rateStoryRoute st userId storyId rating review).2 storyId))]⟩) ∧
    (getRating st userId storyId = none →
       (rateStoryRoute st userId storyId rating review).2.ratings =
         st.ratings ++ [{ id := st.nextRatingId, userId := userId, storyId := storyId,
                          rating := rating, review := review.getD "", createdAt := st.now }] ∧
       getRating (rateStoryRoute st userId storyId rating review).2 userId storyId =
         some { id := st.nextRatingId, userId := userId, storyId := storyId,
                rating := rating, review := review.getD "", createdAt := st.now } ∧
       (rateStoryRoute st userId storyId rating review).1 =
         ⟨200, .obj [("rating", .obj (ratingFields
                        { id := st.nextRatingId, userId := userId, storyId := storyId,
                          rating := rating, review := review.getD "", createdAt := st.now })),
                     ("averageRating", .num (getAverageRating
                        (rateStoryRoute st userId storyId rating review).2 storyId))]⟩) := by
  refine ⟨fun ex hex => ?_, fun hnone => ?_⟩
  · have hmem : ex ∈ st.ratings := by
      unfold getRating at hex
      exact List.mem_of_find?_eq_some hex
    have hfind : st.ratings.find? (fun r => r.id == ex.id) = some ex := find?_id_of_mem hmem hnd
    unfold getRating at hex
    simp only [rateStoryRoute, hs, getRating, hex, updateRating, hfind]
    refine ⟨by simp, ?_, trivial⟩
    rw [find?_map_of_find? hex
      (fun y => by by_cases hy : (y.id == ex.id) = true <;> simp [hy])]
    rw [if_pos (by simp)]
  · unfold getRating at hnone
    simp only [rateStoryRoute, hs, getRating, hnone, createRating]
    refine ⟨trivial, ?_, trivial⟩
    rw [List.find?_append, hnone]
    simp

/-- C1 witness: user 2 re-rates story 1 (update in place, id preserved) and
user 1 rates it for the first time (exactly one new record appended). -/
theorem ratingUpsertC1_witness :
    getStory wSt 1 = some wStory1 ∧ (wSt.ratings.map Rating.id).Nodup ∧
    getRating wSt 2 1 = some wRating ∧
    (rateStoryRoute wSt 2 1 5 none).2.ratings.length = wSt.ratings.length ∧
    getRating (rateStoryRoute wSt 2 1 5 none).2 2 1 =
      some { wRating with rating := 5, review := (none : Option String).getD wRating.review } ∧
    getRating wSt 1 1 = none ∧
    (rateStoryRoute wSt 1 1 3 (some "ok")).2.ratings =
      wSt.ratings ++ [{ id := wSt.nextRatingId, userId := 1, storyId := 1,
                        rating := 3, review := (some "ok").getD "", createdAt := wSt.now }] :=
  ⟨by decide, by decide, by decide,
   ((ratingUpsertC1 wSt 2 1 5 none wStory1 (by decide) (by decide)).1 wRating (by decide)).1,
   ((ratingUpsertC1 wSt 2 1 5 none wStory1 (by decide) (by decide)).1 wRating (by decide)).2.1,
   by decide,
   ((ratingUpsertC1 wSt 1 1 3 (some "ok") wStory1 (by decide) (by decide)).2 (by decide)).1⟩

/-- C9: every user-returning endpoint of the memory version strips the
`password` field from its response, and the two user-fetching GET endpoints
are noninterfering with stored passwords: states that differ only in users'
passwords produce identical responses. -/
theorem passwordStrippingC9 (st st' : Storage) (h : pwEquiv st st') :
    (∀ sess, authMeRoute st sess = authMeRoute st' sess) ∧
    (∀ i, getUserRoute st i = getUserRoute st' i) ∧
    (∀ sess b, "password" ∉ bodyKeys (registerRoute st sess b).1) ∧
    (∀ sess b, "password" ∉ bodyKeys (loginRoute st sess b).1) ∧
    (∀ sess, "password" ∉ bodyKeys (authMeRoute st sess)) ∧
    (∀ i, "password" ∉ bodyKeys (getUserRoute st i)) ∧
    (∀ su pid f g k, "password" ∉ bodyKeys (updateUserRoute st su pid f g k).1) ∧
    (∀ su pid, "password" ∉ bodyKeys (premiumRoute st su pid).1) := by
  obtain ⟨hus, -, -, -, -, -⟩ := h
  refine ⟨fun sess => ?_, fun i => ?_, fun sess b => ?_, fun sess b => ?_,
          fun sess => ?_, fun i => ?_, fun su pid f g k => ?_, fun su pid => ?_⟩
  · cases sess with
    | none => rfl
    | some uid => exact userResp_congr hus uid
  · exact userResp_congr hus i
  · unfold registerRoute
    split
    · exact pw_notin_msg
    · split
      · exact pw_notin_msg
      · split
        · exact pw_notin_msg
        · exact pw_notin_user
  · unfold loginRoute
    split
    · exact pw_notin_msg
    · split
      · exact pw_notin_msg
      · split
        · exact pw_notin_msg
        · exact pw_notin_user
  · unfold authMeRoute
    split
    · exact pw_notin_msg
    · split
      · exact pw_notin_msg
      · exact pw_notin_user
  · unfold getUserRoute
    split
    · exact pw_notin_msg
    · exact pw_notin_user
  · unfold updateUserRoute
    split
    · exact pw_notin_msg
    · dsimp only
      split
      · exact pw_notin_msg
      · exact pw_notin_user
  · unfold premiumRoute
    split
    · exact pw_notin_msg
    · dsimp only
      split
      · exact pw_notin_msg
      · exact pw_notin_user

/-- `wAlice` with a different password. -/
def wAliceAlt : User := { wAlice with password := "different9" }

/-- `wBob` with a different password. -/
def wBobAlt : User := { wBob with password := "other12345" }

/-- `wSt` with both passwords changed and nothing else. -/
def wStAlt : Storage := { wSt with users := [wAliceAlt, wBobAlt] }

/-- C9 witness: two concrete states differing only in passwords give
identical responses on the user-fetching GET endpoints, and concrete
responses carry no `password` key. -/
theorem passwordStrippingC9_witness :
    wAliceAlt.password ≠ wAlice.password ∧ wBobAlt.password ≠ wBob.password ∧
    authMeRoute wSt (some 1) = authMeRoute wStAlt (some 1) ∧
    getUserRoute wSt 2 = getUserRoute wStAlt 2 ∧
    "password" ∉ bodyKeys (authMeRoute wSt (some 1)) ∧
    "password" ∉ bodyKeys (getUserRoute wSt 2) ∧
    "password" ∉ bodyKeys (registerRoute wSt none wRegNew).1 ∧
    "password" ∉ bodyKeys (loginRoute wSt none { username := "alice", password := "wonder77" }).1 ∧
    "password" ∉ bodyKeys (updateUserRoute wSt 1 1 (some "New Name") none none).1 ∧
    "password" ∉ bodyKeys (premiumRoute wSt 1 1).1 := by
  have hpe : pwEquiv wSt wStAlt :=
    ⟨List.Forall₂.cons rfl (List.Forall₂.cons rfl List.Forall₂.nil),
     rfl, rfl, rfl, rfl, rfl⟩
  exact ⟨by decide, by decide,
    (passwordStrippingC9 wSt wStAlt hpe).1 (some 1),
    (passwordStrippingC9 wSt wStAlt hpe).2.1 2,
    (passwordStrippingC9 wSt wStAlt hpe).2.2.2.2.1 (some 1),
    (passwordStrippingC9 wSt wStAlt hpe).2.2.2.2.2.1 2,
    (passwordStrippingC9 wSt wStAlt hpe).2.2.1 none wRegNew,
    (passwordStrippingC9 wSt wStAlt hpe).2.2.2.1 none { username := "alice", password := "wonder77" },
    (passwordStrippingC9 wSt wStAlt hpe).2.2.2.2.2.2.1 1 1 (some "New Name") none none,
    (passwordStrippingC9 wSt wStAlt hpe).2.2.2.2.2.2.2 1 1⟩

/-- C10: every story-list endpoint of the memory version (`GET /api/stories`,
`/api/stories/featured`, `/api/stories/top-rated`, `/api/bookmarks`) returns
an array of story objects built without the `content` field, keeping the
story's other columns plus the added aggregate fields, for every stored
state and query. -/
theorem listOmitsContentC10 (st : Storage) (q : StoryQuery) (limit userId : Nat) :
    ((getStoriesRoute st q).body =
       .arr ((getStories st q).map (fun s => .obj (storyListItem st s)))) ∧
    ((featuredStoriesRoute st limit).body =
       .arr ((getFeaturedStories st limit).map (fun s => .obj (storyListItem st s)))) ∧
    ((topRatedStoriesRoute st limit).body =
       .arr ((getTopRatedStories st limit).map (fun s => .obj (topRatedItem st s)))) ∧
    ((getBookmarksRoute st userId).body =
       .arr ((getBookmarks st userId).map (fun s => .obj (storyListItem st s)))) ∧
    (∀ s, objKeys (storyListItem st s) =
       ["id", "title", "description", "coverImage", "authorId", "isPremium", "isPublished",
        "isShortStory", "createdAt", "updatedAt", "averageRating", "genres", "author"]) ∧
    (∀ s, objKeys (topRatedItem st s) =
       ["id", "title", "description", "coverImage", "authorId", "isPremium", "isPublished",
        "isShortStory", "createdAt", "updatedAt", "genres", "ratingCount", "author"]) ∧
    (∀ s, "content" ∉ objKeys (storyListItem st s)) ∧
    (∀ s, "content" ∉ objKeys (topRatedItem st s)) := by
  have hnot1 : ("content" : String) ∉
      (["id", "title", "description", "coverImage", "authorId", "isPremium", "isPublished",
        "isShortStory", "createdAt", "updatedAt", "averageRating", "genres", "author"] :
        List String) := by decide
  have hnot2 : ("content" : String) ∉
      (["id", "title", "description", "coverImage", "authorId", "isPremium", "isPublished",
        "isShortStory", "createdAt", "updatedAt", "genres", "ratingCount", "author"] :
        List String) := by decide
  refine ⟨rfl, rfl, rfl, rfl, fun s => rfl, fun s => rfl, fun s hmem => ?_, fun s hmem => ?_⟩
  · rw [show objKeys (storyListItem st s) =
      ["id", "title", "description", "coverImage", "authorId", "isPremium", "isPublished",
       "isShortStory", "createdAt", "updatedAt", "averageRating", "genres", "author"] from rfl] at hmem
    exact hnot1 hmem
  · rw [show objKeys (topRatedItem st s) =
      ["id", "title", "description", "coverImage", "authorId", "isPremium", "isPublished",
       "isShortStory", "createdAt", "updatedAt", "genres", "ratingCount", "author"] from rfl] at hmem
    exact hnot2 hmem

/-- C10 witness: the content-free key lists on a concrete state and story. -/
theorem listOmitsContentC10_witness :
    "content" ∉ objKeys (storyListItem wSt wStory1) ∧
    "content" ∉ objKeys (topRatedItem wSt wStory1) ∧
    objKeys (storyListItem wSt wStory1) =
      ["id", "title", "description", "coverImage", "authorId", "isPremium", "isPublished",
       "isShortStory", "createdAt", "updatedAt", "averageRating", "genres", "author"] :=
  ⟨(listOmitsContentC10 wSt {} 3 2).2.2.2.2.2.2.1 wStory1,
   (listOmitsContentC10 wSt {} 3 2).2.2.2.2.2.2.2 wStory1,
   (listOmitsContentC10 wSt {} 3 2).2.2.2.2.1 wStory1⟩
